/-
Verification of the tool-orchestration loop in
`examples/claude-api-integration.py`.

The script wires a chat-completion service to an HTTP knowledge-bridge
service: it sends a transcript to the chat service, and while the chat
service answers with stop reason "tool_use" it forwards the requested
query to the bridge (`call_david_gpt`), folds the bridge answer back into
the transcript as a tool-result turn, and re-invokes the chat service.

The two external collaborators are modelled as scripted oracles: a list of
chat-service responses and a list of bridge HTTP responses, each consumed
one element per call.  The loop itself is embedded as a structurally
recursive function over the chat script which also produces a trace of the
external calls it makes (`Event`), so that claims about "no further call",
"exactly one bridge call", or "the transcript passed to each call" are
statements about that trace.

Python-specific semantics that matter here and are embedded explicitly:
- `if x:` on an `Optional[str]` is truthiness: both `None` and the empty
  string take the false branch (`pyTruthy`);
- `dict.get(k)` is an `Option`, `dict.get(k, d)` is `Option.getD`;
- `requests.Response.raise_for_status` raises `HTTPError` exactly for
  status codes in `[400, 600)` — 1xx/3xx codes do not raise;
- `next(gen)` with no default raises `StopIteration`; indexing a missing
  dict key raises `KeyError`; slicing `None` raises `TypeError`.
-/
import Mathlib

/-- A content block of a chat-service response.  Blocks are duck-typed in
the source: `text = some s` models a block that has a `text` attribute
(`hasattr(block, "text")`); `name`, `input` and `id` model the attributes
the source only reads on blocks whose `type` is `"tool_use"` (the SDK
guarantees tool-use blocks carry them).  `input` is the structured tool
input, a string-keyed dictionary. -/
structure ContentBlock where
  type : String
  text : Option String
  name : String
  input : List (String × String)
  id : String
  deriving Repr, DecidableEq

/-- A chat-service response: a stop reason and an ordered list of content
blocks (`client.messages.create(...)` result). -/
structure ChatResponse where
  stop_reason : String
  content : List ContentBlock
  deriving Repr, DecidableEq

/-- The JSON body of a bridge HTTP response, as read by `data.get(...)`:
every field may be absent. -/
structure BridgeData where
  conversation_id : Option String
  response : Option String
  citations : Option (List String)
  deriving Repr, DecidableEq

/-- A bridge HTTP response: status code plus parsed JSON body
(`body = none` models a body that is not valid JSON, on which
`response.json()` raises). -/
structure HttpResponse where
  status : Nat
  body : Option BridgeData
  deriving Repr, DecidableEq

/-- The record `call_david_gpt` returns on success. -/
structure BridgeResult where
  conversation_id : Option String
  response : Option String
  citations : List String
  deriving Repr, DecidableEq

/-- The exceptions the script can raise.  `chatUnavailable` and
`bridgeUnavailable` model a transport error of the corresponding external
call (in the oracle model: the script of responses is exhausted). -/
inductive Err where
  | httpError (status : Nat)
  | jsonDecodeError
  | stopIteration
  | keyError (key : String)
  | typeError
  | valueError (msg : String)
  | chatUnavailable
  | bridgeUnavailable
  deriving Repr, DecidableEq

/-- Content of a conversation turn: a plain string (`{"role": "user",
"content": user_message}`), the block list of an assistant response, or
the singleton tool-result list `[{"type": "tool_result", "tool_use_id":
..., "content": ...}]`. -/
inductive MsgContent where
  | text (s : String)
  | blocks (bs : List ContentBlock)
  | toolResult (tool_use_id : String) (content : String)
  deriving Repr, DecidableEq

/-- A conversation turn in the transcript sent to the chat service. -/
structure Message where
  role : String
  content : MsgContent
  deriving Repr, DecidableEq

/-- Decidable equality of exception-or-value outcomes. -/
instance exceptDecEq {e a : Type} [DecidableEq e] [DecidableEq a] :
    DecidableEq (Except e a) := fun x y =>
  match x, y with
  | .ok v, .ok w => decidable_of_iff (v = w) (by simp)
  | .error v, .error w => decidable_of_iff (v = w) (by simp)
  | .ok _, .error _ => isFalse (by simp)
  | .error _, .ok _ => isFalse (by simp)

/-- One observable external call of the loop: a chat-service call carrying
the transcript passed to it, or a bridge call carrying the arguments
passed to `call_david_gpt` and its outcome. -/
inductive Event where
  | chatCall (messages : List Message)
  | bridgeCall (message : String) (conversation_id : Option String)
      (result : Except Err BridgeResult)
  deriving Repr, DecidableEq

/-- Python truthiness of an `Optional[str]`: `None` and `""` are falsy. -/
def pyTruthy : Option String → Bool
  | none => false
  | some s => s != ""

/-- `next((block.text for block in content if hasattr(block, "text")), None)`:
the text of the first block bearing a `text` attribute, else `None`. -/
def firstText (content : List ContentBlock) : Option String :=
  (content.find? fun b => b.text.isSome).bind ContentBlock.text

/-- The JSON body `call_david_gpt` POSTs to the bridge, keyed on the
truthiness of `conversation_id` (`if conversation_id:`): `None` and the
empty string select the new-conversation body. -/
def bridgeRequestBody (message : String) (conversation_id : Option String) :
    List (String × String) :=
  match conversation_id with
  | some cid =>
      if cid = "" then
        [("action", "new_conversation"), ("message", message), ("persona", "david")]
      else
        [("action", "reply_to_conversation"), ("conversation_id", cid),
         ("message", message)]
  | none =>
      [("action", "new_conversation"), ("message", message), ("persona", "david")]

/-- `requests.Response.raise_for_status()`: raises `HTTPError` exactly for
4xx and 5xx status codes. -/
def raise_for_status (r : HttpResponse) : Except Err Unit :=
  if 400 ≤ r.status ∧ r.status < 600 then .error (.httpError r.status)
  else .ok ()

/-- `call_david_gpt(message, conversation_id)` against one bridge HTTP
response: returns the POSTed request body and either the result record
(with `citations` defaulted to `[]` when absent) or the exception raised
(`raise_for_status`, or a JSON decode failure). -/
def call_david_gpt (message : String) (conversation_id : Option String)
    (http : HttpResponse) :
    List (String × String) × Except Err BridgeResult :=
  (bridgeRequestBody message conversation_id,
    match raise_for_status http with
    | .error e => .error e
    | .ok _ =>
      match http.body with
      | none => .error .jsonDecodeError
      | some data =>
        .ok { conversation_id := data.conversation_id
              response := data.response
              citations := data.citations.getD [] })

/-- The single declared tool schema (name and required parameters). -/
structure ToolSchema where
  name : String
  required : List String
  deriving Repr, DecidableEq

/-- The `tools` list passed to every chat-service call. -/
def tools : List ToolSchema := [⟨"ask_david_gpt", ["message"]⟩]

/-- Result of one run of the orchestration loop: the trace of external
calls, the final value of the module-global `conversation_id`, the
unconsumed oracle scripts, and the returned value (`firstText` of the
terminal response) or the exception raised. -/
structure LoopOut where
  trace : List Event
  conversation_id : Option String
  chatLeft : List ChatResponse
  bridgeLeft : List HttpResponse
  result : Except Err (Option String)
  deriving Repr

/-- The `while response.stop_reason == "tool_use"` loop of
`chat_with_claude`, given the current chat-service response `resp`, the
remaining oracle scripts, the current global `conversation_id` and the
current transcript.  Each iteration: find the first tool-use block
(`next(...)`, `StopIteration` if none), read `input["message"]`
(`KeyError` if absent), call the bridge, store a truthy returned
conversation identifier, print the response preview (`TypeError` when the
response text is `None`), append the assistant turn and the tool-result
turn, and re-invoke the chat service on the extended transcript. -/
def processLoop (resp : ChatResponse) (chatScript : List ChatResponse)
    (bridgeScript : List HttpResponse) (cid : Option String)
    (messages : List Message) : LoopOut :=
  if resp.stop_reason = "tool_use" then
    match resp.content.find? (fun b => b.type == "tool_use") with
    | none => ⟨[], cid, chatScript, bridgeScript, .error .stopIteration⟩
    | some tool_use =>
      match tool_use.input.lookup "message" with
      | none => ⟨[], cid, chatScript, bridgeScript, .error (.keyError "message")⟩
      | some msg =>
        match bridgeScript with
        | [] =>
          ⟨[.bridgeCall msg cid (.error .bridgeUnavailable)], cid, chatScript,
            [], .error .bridgeUnavailable⟩
        | http :: bridgeRest =>
          match (call_david_gpt msg cid http).2 with
          | .error e =>
            ⟨[.bridgeCall msg cid (.error e)], cid, chatScript, bridgeRest,
              .error e⟩
          | .ok result =>
            let cid' :=
              if pyTruthy result.conversation_id then result.conversation_id
              else cid
            match result.response with
            | none =>
              ⟨[.bridgeCall msg cid (.ok result)], cid', chatScript,
                bridgeRest, .error .typeError⟩
            | some rtext =>
              let messages' := messages ++
                [⟨"assistant", .blocks resp.content⟩,
                 ⟨"user", .toolResult tool_use.id rtext⟩]
              match chatScript with
              | [] =>
                ⟨[.bridgeCall msg cid (.ok result), .chatCall messages'],
                  cid', [], bridgeRest, .error .chatUnavailable⟩
              | resp' :: chatRest =>
                let out := processLoop resp' chatRest bridgeRest cid' messages'
                ⟨.bridgeCall msg cid (.ok result) :: .chatCall messages' ::
                    out.trace,
                  out.conversation_id, out.chatLeft, out.bridgeLeft, out.result⟩
  else
    ⟨[], cid, chatScript, bridgeScript, .ok (firstText resp.content)⟩

/-- `chat_with_claude(user_message)` against scripted oracles: build the
initial transcript, make the first chat-service call, then run the loop.
`cid` is the value of the module-global `conversation_id` on entry. -/
def chat_with_claude (user_message : String) (chatScript : List ChatResponse)
    (bridgeScript : List HttpResponse) (cid : Option String) : LoopOut :=
  let messages : List Message := [⟨"user", .text user_message⟩]
  match chatScript with
  | [] => ⟨[.chatCall messages], cid, [], bridgeScript, .error .chatUnavailable⟩
  | resp :: rest =>
    let out := processLoop resp rest bridgeScript cid messages
    ⟨.chatCall messages :: out.trace, out.conversation_id, out.chatLeft,
      out.bridgeLeft, out.result⟩

/-- Module configuration read at import time. -/
structure Config where
  mcp_bridge_url : String
  anthropic_api_key : String
  deriving Repr, DecidableEq

/-- Module-level initialization: read `MCP_BRIDGE_URL` with its default,
read `ANTHROPIC_API_KEY`, and raise `ValueError` when the key is falsy
(`if not ANTHROPIC_API_KEY:`), before any client is built or any network
call is made.  `env` models the process environment. -/
def startup (env : List (String × String)) : Except Err Config :=
  let url := (env.lookup "MCP_BRIDGE_URL").getD "http://localhost:3000/api/mcp-bridge"
  let key := env.lookup "ANTHROPIC_API_KEY"
  if pyTruthy key then .ok ⟨url, key.getD ""⟩
  else .error (.valueError "Please set ANTHROPIC_API_KEY environment variable")

/-- Outcome of a whole process run: trace of all external calls, final
global `conversation_id`, and success or the uncaught exception. -/
structure DemoOut where
  trace : List Event
  conversation_id : Option String
  result : Except Err Unit
  deriving Repr

/-- User message of the first example exchange. -/
def demoMessage1 : String := "What is Leia technology and how does it work?"

/-- User message of the second example exchange. -/
def demoMessage2 : String :=
  "What are the advantages of the 3D Cell approach over the older DLB technology?"

/-- User message of the third example exchange. -/
def demoMessage3 : String := "Can you summarize the key innovations in simple terms?"

/-- The `__main__` block: three `chat_with_claude` exchanges run
sequentially against the module-global `conversation_id`, which starts
absent; an uncaught exception in one exchange aborts the run. -/
def runDemo (chatScript : List ChatResponse) (bridgeScript : List HttpResponse) :
    DemoOut :=
  let e1 := chat_with_claude demoMessage1 chatScript bridgeScript none
  match e1.result with
  | .error er => ⟨e1.trace, e1.conversation_id, .error er⟩
  | .ok _ =>
    let e2 := chat_with_claude demoMessage2 e1.chatLeft e1.bridgeLeft
      e1.conversation_id
    match e2.result with
    | .error er => ⟨e1.trace ++ e2.trace, e2.conversation_id, .error er⟩
    | .ok _ =>
      let e3 := chat_with_claude demoMessage3 e2.chatLeft e2.bridgeLeft
        e2.conversation_id
      match e3.result with
      | .error er =>
        ⟨e1.trace ++ e2.trace ++ e3.trace, e3.conversation_id, .error er⟩
      | .ok _ =>
        ⟨e1.trace ++ e2.trace ++ e3.trace, e3.conversation_id, .ok ()⟩

/-- A full process run: module initialization, then the `__main__` demo.
A startup failure happens before any network activity, so its trace is
empty. -/
def runProgram (env : List (String × String)) (chatScript : List ChatResponse)
    (bridgeScript : List HttpResponse) : DemoOut :=
  match startup env with
  | .error e => ⟨[], none, .error e⟩
  | .ok _ => runDemo chatScript bridgeScript

/-! ### Trace observations -/

/-- Is this event a bridge call? -/
def Event.isBridge : Event → Bool
  | .bridgeCall .. => true
  | .chatCall _ => false

/-- The first bridge call of a trace, if any. -/
def firstBridge (tr : List Event) : Option Event :=
  tr.find? Event.isBridge

/-- The bridge calls of a trace, in order: the `message` argument, the
conversation-identifier argument, and the outcome of each call. -/
def bridgeEvents : List Event → List (String × Option String × Except Err BridgeResult)
  | [] => []
  | .chatCall _ :: rest => bridgeEvents rest
  | .bridgeCall m c res :: rest => (m, c, res) :: bridgeEvents rest

/-- The transcripts passed to the chat-service calls of a trace, in
order. -/
def chatCalls (tr : List Event) : List (List Message) :=
  tr.filterMap fun
    | .chatCall ms => some ms
    | .bridgeCall .. => none

/-- How the loop updates the stored conversation identifier from one
bridge outcome (source line `if result["conversation_id"]:
conversation_id = result["conversation_id"]`): only a truthy (present and
non-empty) returned identifier overwrites, and a raising call leaves the
state unchanged. -/
def updCid (s : Option String) : Except Err BridgeResult → Option String
  | .ok r => if pyTruthy r.conversation_id then r.conversation_id else s
  | .error _ => s

/-- Modelled from the spec: the identifier update the claim describes,
where any *present* returned conversation identifier (empty or not)
becomes the most recently returned one that subsequent calls must
include. -/
def updCidSpec (s : Option String) : Except Err BridgeResult → Option String
  | .ok r => if r.conversation_id.isSome then r.conversation_id else s
  | .error _ => s

/-- The stored conversation identifier after replaying a trace from state
`s` with update rule `upd`. -/
def traceCid (upd : Option String → Except Err BridgeResult → Option String)
    (s : Option String) : List Event → Option String
  | [] => s
  | .chatCall _ :: rest => traceCid upd s rest
  | .bridgeCall _ _ res :: rest => traceCid upd (upd s res) rest

/-- Each bridge call of the trace passes exactly the identifier obtained
by folding `upd` over the outcomes of the previous bridge calls, starting
from `s`. -/
def bridgeChainB (upd : Option String → Except Err BridgeResult → Option String)
    (s : Option String) : List Event → Bool
  | [] => true
  | .chatCall _ :: rest => bridgeChainB upd s rest
  | .bridgeCall _ c res :: rest =>
      c == s && bridgeChainB upd (upd s res) rest

/-- One transcript-growth step of the loop: the next transcript is the
previous one plus exactly an assistant turn carrying a response's block
list and a tool-result turn keyed to the `id` of the first tool-use block
of that same block list. -/
def chatStep (m m' : List Message) : Prop :=
  ∃ bs tb rtext, bs.find? (fun b => b.type == "tool_use") = some tb ∧
    m' = m ++ [⟨"assistant", .blocks bs⟩, ⟨"user", .toolResult tb.id rtext⟩]


/-! ### Concrete fixtures for witnesses and counterexamples -/

/-- A tool-use content block requesting the declared tool with query `q`. -/
def toolUseBlock (q : String) : ContentBlock :=
  ⟨"tool_use", none, "ask_david_gpt", [("message", q)], "toolu_1"⟩

/-- A chat-service response requesting the tool with query `q`. -/
def toolUseResp (q : String) : ChatResponse := ⟨"tool_use", [toolUseBlock q]⟩

/-- A text content block. -/
def textBlock (t : String) : ContentBlock := ⟨"text", some t, "", [], ""⟩

/-- A terminal chat-service response answering `t`. -/
def terminalResp (t : String) : ChatResponse := ⟨"end_turn", [textBlock t]⟩

/-- A 200 bridge response with the given identifier and response text. -/
def okBridgeHttp (c r : Option String) : HttpResponse := ⟨200, some ⟨c, r, none⟩⟩

/-- A 304 Not Modified bridge response carrying a JSON body: a non-2xx
status on which `raise_for_status` does not raise. -/
def http304 : HttpResponse := ⟨304, some ⟨some "c304", some "r304", none⟩⟩

/-- A terminal response none of whose blocks carries a `text` attribute. -/
def noTextResp : ChatResponse := ⟨"end_turn", [toolUseBlock "q"]⟩

/-- Chat script used by the C3 counterexample run: three tool requests in
the first exchange, then terminal answers. -/
def c3chatScript : List ChatResponse :=
  [toolUseResp "q1", toolUseResp "q2", toolUseResp "q3", terminalResp "done",
   terminalResp "a2", terminalResp "a3"]

/-- Bridge script used by the C3 counterexample run: the second bridge
result carries a present but empty conversation identifier. -/
def c3bridgeScript : List HttpResponse :=
  [okBridgeHttp (some "c1") (some "r1"), okBridgeHttp (some "") (some "r2"),
   okBridgeHttp (some "c3") (some "r3")]

/-- Modelled from the spec: the new-conversation request body of the
bridge HTTP contract. -/
def specNewBody (message persona : String) : List (String × String) :=
  [("action", "new_conversation"), ("message", message), ("persona", persona)]

/-- Modelled from the spec: the continue-conversation request body of the
bridge HTTP contract. -/
def specReplyBody (conversation_id message : String) : List (String × String) :=
  [("action", "reply_to_conversation"), ("conversation_id", conversation_id),
   ("message", message)]

/-! ### Branch equations and loop invariants -/

/-- On a terminal stop reason the loop returns immediately: first text
block as result, no event emitted, state and scripts untouched. -/
theorem processLoop_terminal (resp : ChatResponse) (cs : List ChatResponse)
    (bs : List HttpResponse) (cid : Option String) (msgs : List Message)
    (h : resp.stop_reason ≠ "tool_use") :
    processLoop resp cs bs cid msgs = ⟨[], cid, cs, bs, .ok (firstText resp.content)⟩ := by
  unfold processLoop
  simp [h]

/-- On a tool-use stop reason with a well-formed tool-use block, the first
event of the iteration is the bridge call with the block's `message` input
and the current identifier, and the only event that can follow before the
rest of the trace is the chat-service re-invocation. -/
theorem processLoop_head (resp : ChatResponse) (cs : List ChatResponse)
    (bs : List HttpResponse) (cid : Option String) (msgs : List Message)
    (tool_use : ContentBlock) (msg : String)
    (h1 : resp.stop_reason = "tool_use")
    (h2 : resp.content.find? (fun b => b.type == "tool_use") = some tool_use)
    (h3 : tool_use.input.lookup "message" = some msg) :
    ∃ res tl, (processLoop resp cs bs cid msgs).trace = .bridgeCall msg cid res :: tl ∧
      (tl = [] ∨ ∃ ms tl', tl = .chatCall ms :: tl') := by
  unfold processLoop
  simp only [h1, h2, h3, if_true, reduceIte]
  split
  · exact ⟨_, _, rfl, Or.inl rfl⟩
  · split
    · exact ⟨_, _, rfl, Or.inl rfl⟩
    · split
      · exact ⟨_, _, rfl, Or.inl rfl⟩
      · split
        · exact ⟨_, _, rfl, Or.inr ⟨_, _, rfl⟩⟩
        · exact ⟨_, _, rfl, Or.inr ⟨_, _, rfl⟩⟩

/-- Loop invariant: every bridge call passes exactly the stored
identifier, the stored identifier evolves by `updCid` (truthy returned
identifiers overwrite, everything else is kept), and the final global
identifier is the fold of `updCid` over the trace. -/
theorem loop_cid_chain (cs : List ChatResponse) (resp : ChatResponse)
    (bs : List HttpResponse) (cid : Option String) (msgs : List Message) :
    bridgeChainB updCid cid (processLoop resp cs bs cid msgs).trace = true ∧
    (processLoop resp cs bs cid msgs).conversation_id =
      traceCid updCid cid (processLoop resp cs bs cid msgs).trace := by
  induction cs generalizing resp bs cid msgs with
  | nil =>
    unfold processLoop
    repeat' split
    all_goals simp_all [bridgeChainB, traceCid, updCid]
  | cons resp' chatRest ih =>
    unfold processLoop
    repeat' split
    all_goals simp_all [bridgeChainB, traceCid, updCid, ih]

/-- Loop invariant: the transcripts passed to successive chat-service
calls grow by exactly the assistant turn and the keyed tool-result turn,
starting from the transcript of the preceding call. -/
theorem loop_chat_chain (cs : List ChatResponse) (resp : ChatResponse)
    (bs : List HttpResponse) (cid : Option String) (msgs : List Message) :
    List.Chain' chatStep (msgs :: chatCalls (processLoop resp cs bs cid msgs).trace) := by
  induction cs generalizing resp bs cid msgs with
  | nil =>
    unfold processLoop
    repeat' split
    all_goals try simp_all [chatCalls]
    all_goals exact ⟨_, _, _, by assumption, rfl⟩
  | cons resp' chatRest ih =>
    unfold processLoop
    repeat' split
    all_goals try simp_all [chatCalls]
    all_goals exact ⟨_, _, _, by assumption, rfl⟩

/-- Replaying a concatenated trace folds the state through the first part
first. -/
theorem traceCid_append (upd : Option String → Except Err BridgeResult → Option String)
    (t1 t2 : List Event) (s : Option String) :
    traceCid upd s (t1 ++ t2) = traceCid upd (traceCid upd s t1) t2 := by
  induction t1 generalizing s with
  | nil => simp [traceCid]
  | cons e rest ih =>
    cases e with
    | chatCall ms => simp [traceCid, ih]
    | bridgeCall m c res => simp [traceCid, ih]

/-- The chain property splits over a concatenated trace at the replayed
intermediate state. -/
theorem bridgeChainB_append (upd : Option String → Except Err BridgeResult → Option String)
    (t1 t2 : List Event) (s : Option String) :
    bridgeChainB upd s (t1 ++ t2) =
      (bridgeChainB upd s t1 && bridgeChainB upd (traceCid upd s t1) t2) := by
  induction t1 generalizing s with
  | nil => simp [bridgeChainB, traceCid]
  | cons e rest ih =>
    cases e with
    | chatCall ms => simp [bridgeChainB, traceCid, ih]
    | bridgeCall m c res => simp [bridgeChainB, traceCid, ih, Bool.and_assoc]

/-- In a chained trace, the first bridge call passes the initial state. -/
theorem chain_firstBridge (upd : Option String → Except Err BridgeResult → Option String)
    (tr : List Event) (s : Option String) (h : bridgeChainB upd s tr = true)
    (m : String) (c : Option String) (res : Except Err BridgeResult)
    (hf : firstBridge tr = some (.bridgeCall m c res)) : c = s := by
  induction tr generalizing s with
  | nil => simp [firstBridge] at hf
  | cons e rest ih =>
    cases e with
    | chatCall ms =>
      simp [firstBridge, List.find?, Event.isBridge] at hf
      simp [bridgeChainB] at h
      exact ih s h (by simpa [firstBridge] using hf)
    | bridgeCall m' c' res' =>
      simp [firstBridge, List.find?, Event.isBridge] at hf
      simp [bridgeChainB] at h
      rw [← hf.2.1, h.1]

/-- A trace without bridge calls replays to the initial state. -/
theorem noBridge_traceCid (upd : Option String → Except Err BridgeResult → Option String)
    (tr : List Event) (s : Option String) (h : firstBridge tr = none) :
    traceCid upd s tr = s := by
  induction tr generalizing s with
  | nil => simp [traceCid]
  | cons e rest ih =>
    cases e with
    | chatCall ms =>
      simp [firstBridge, List.find?, Event.isBridge] at h
      exact ih s (by simpa [firstBridge] using h)
    | bridgeCall m c res => simp [firstBridge, List.find?, Event.isBridge] at h

/-- The conversation-identifier invariant lifted to a whole exchange. -/
theorem chat_cid_chain (u : String) (cs : List ChatResponse)
    (bs : List HttpResponse) (cid : Option String) :
    bridgeChainB updCid cid (chat_with_claude u cs bs cid).trace = true ∧
    (chat_with_claude u cs bs cid).conversation_id =
      traceCid updCid cid (chat_with_claude u cs bs cid).trace := by
  unfold chat_with_claude
  cases cs with
  | nil => simp [bridgeChainB, traceCid]
  | cons resp rest =>
    simpa [bridgeChainB, traceCid] using loop_cid_chain rest resp bs cid _

/-- The conversation-identifier invariant over the whole three-exchange
demo run, starting from the absent identifier. -/
theorem demo_cid_chain (cs : List ChatResponse) (bs : List HttpResponse) :
    bridgeChainB updCid none (runDemo cs bs).trace = true ∧
    (runDemo cs bs).conversation_id = traceCid updCid none (runDemo cs bs).trace := by
  unfold runDemo
  simp only []
  have h1 := chat_cid_chain demoMessage1 cs bs none
  split
  · exact h1
  · have h2 := chat_cid_chain demoMessage2
      (chat_with_claude demoMessage1 cs bs none).chatLeft
      (chat_with_claude demoMessage1 cs bs none).bridgeLeft
      (chat_with_claude demoMessage1 cs bs none).conversation_id
    split
    · exact ⟨by simp [bridgeChainB_append, h1.1, ← h1.2, h2.1],
        by simp [traceCid_append, ← h1.2, ← h2.2]⟩
    · have h3 := chat_cid_chain demoMessage3
        (chat_with_claude demoMessage2
          (chat_with_claude demoMessage1 cs bs none).chatLeft
          (chat_with_claude demoMessage1 cs bs none).bridgeLeft
          (chat_with_claude demoMessage1 cs bs none).conversation_id).chatLeft
        (chat_with_claude demoMessage2
          (chat_with_claude demoMessage1 cs bs none).chatLeft
          (chat_with_claude demoMessage1 cs bs none).bridgeLeft
          (chat_with_claude demoMessage1 cs bs none).conversation_id).bridgeLeft
        (chat_with_claude demoMessage2
          (chat_with_claude demoMessage1 cs bs none).chatLeft
          (chat_with_claude demoMessage1 cs bs none).bridgeLeft
          (chat_with_claude demoMessage1 cs bs none).conversation_id).conversation_id
      split
      · exact ⟨by simp [bridgeChainB_append, traceCid_append, h1.1, ← h1.2, h2.1, ← h2.2, h3.1],
          by simp [traceCid_append, ← h1.2, ← h2.2, ← h3.2]⟩
      · exact ⟨by simp [bridgeChainB_append, traceCid_append, h1.1, ← h1.2, h2.1, ← h2.2, h3.1],
          by simp [traceCid_append, ← h1.2, ← h2.2, ← h3.2]⟩

/-! ### Claims -/

/-- C1: For every chat-service response whose stop reason is terminal (not
"tool_use"), the loop returns the first text content block of that
response and performs no bridge call before returning (its trace is
empty, the stored identifier and the oracle scripts are untouched); in
particular a `chat_with_claude` exchange whose first response is terminal
returns that text with the initial chat-service call as its only external
call. -/
theorem claim_C1 :
    (∀ (resp : ChatResponse) (cs : List ChatResponse) (bs : List HttpResponse)
        (cid : Option String) (msgs : List Message),
      resp.stop_reason ≠ "tool_use" →
        processLoop resp cs bs cid msgs =
          ⟨[], cid, cs, bs, .ok (firstText resp.content)⟩) ∧
    (∀ (u : String) (resp : ChatResponse) (rest : List ChatResponse)
        (bs : List HttpResponse) (cid : Option String),
      resp.stop_reason ≠ "tool_use" →
        chat_with_claude u (resp :: rest) bs cid =
          ⟨[.chatCall [⟨"user", .text u⟩]], cid, rest, bs,
            .ok (firstText resp.content)⟩) := by
  constructor
  · exact processLoop_terminal
  · intro u resp rest bs cid h
    unfold chat_with_claude
    simp only []
    rw [processLoop_terminal resp rest bs cid _ h]

/-- Witness for C1 at a concrete terminal response. -/
theorem claim_C1_witness :
    (terminalResp "done").stop_reason ≠ "tool_use" ∧
    processLoop (terminalResp "done") [] [] none [] =
      ⟨[], none, [], [], .ok (some "done")⟩ :=
  ⟨by decide, by rw [claim_C1.1 (terminalResp "done") [] [] none [] (by decide)]; rfl⟩

/-- C2: For every chat-service response with stop reason "tool_use", the
loop calls the bridge exactly once before re-invoking the chat service —
the first event of the iteration is the bridge call, and the only event
that can follow it before the rest of the trace is the chat re-invocation
— passing the `message` field of the first tool-use block's input and the
current session conversation identifier; and in a whole process run the
first bridge call passes the absent (`none`) identifier. -/
theorem claim_C2 :
    (∀ (resp : ChatResponse) (cs : List ChatResponse) (bs : List HttpResponse)
        (cid : Option String) (msgs : List Message) (tool_use : ContentBlock)
        (msg : String),
      resp.stop_reason = "tool_use" →
      resp.content.find? (fun b => b.type == "tool_use") = some tool_use →
      tool_use.input.lookup "message" = some msg →
        ∃ res tl,
          (processLoop resp cs bs cid msgs).trace = .bridgeCall msg cid res :: tl ∧
          (tl = [] ∨ ∃ ms tl', tl = .chatCall ms :: tl')) ∧
    (∀ (env : List (String × String)) (cs : List ChatResponse)
        (bs : List HttpResponse) (m : String) (c : Option String)
        (res : Except Err BridgeResult),
      firstBridge (runProgram env cs bs).trace = some (.bridgeCall m c res) →
        c = none) := by
  constructor
  · exact processLoop_head
  · intro env cs bs m c res hf
    unfold runProgram at hf
    revert hf
    split
    · intro hf
      simp [firstBridge] at hf
    · intro hf
      exact chain_firstBridge updCid _ none (demo_cid_chain cs bs).1 m c res hf

/-- Witness for C2: a run whose first response requests the tool. -/
theorem claim_C2_witness :
    ((toolUseResp "ping").stop_reason = "tool_use" ∧
     (toolUseResp "ping").content.find? (fun b => b.type == "tool_use") =
       some (toolUseBlock "ping") ∧
     (toolUseBlock "ping").input.lookup "message" = some "ping") ∧
    (∃ res tl,
      (processLoop (toolUseResp "ping") [] [] none []).trace =
        .bridgeCall "ping" none res :: tl ∧
      (tl = [] ∨ ∃ ms tl', tl = .chatCall ms :: tl')) ∧
    (firstBridge (runProgram [("ANTHROPIC_API_KEY", "k")]
        [toolUseResp "ping", terminalResp "pong received",
         terminalResp "a2", terminalResp "a3"]
        [okBridgeHttp (some "c1") (some "pong")]).trace =
      some (.bridgeCall "ping" none (.ok ⟨some "c1", some "pong", []⟩)) ∧
     (none : Option String) = none) :=
  ⟨⟨by decide, by decide, by decide⟩,
   claim_C2.1 (toolUseResp "ping") [] [] none [] (toolUseBlock "ping") "ping"
     (by decide) (by decide) (by decide),
   by decide,
   claim_C2.2 [("ANTHROPIC_API_KEY", "k")]
     [toolUseResp "ping", terminalResp "pong received",
      terminalResp "a2", terminalResp "a3"]
     [okBridgeHttp (some "c1") (some "pong")]
     "ping" none (.ok ⟨some "c1", some "pong", []⟩) (by decide)⟩

/-- Counterexample to C3 as stated.  In this concrete run the second
bridge call returns a present conversation identifier, the string `""`
(`"conversation_id"` is in the response JSON, so the result does not lack
it), yet the third bridge call still passes the older `"c1"` instead of
the most recently returned identifier: the source line
`if result["conversation_id"]:` treats the empty string as falsy and
skips the store.  The first conjunct exhibits the full argument/outcome
list of the run's three bridge calls; the last states that the claim's
own update rule `updCidSpec` (any present returned identifier becomes
the one subsequent calls must include) is violated by the trace. -/
theorem claim_C3_counterexample :
    bridgeEvents (runProgram [("ANTHROPIC_API_KEY", "k")] c3chatScript
        c3bridgeScript).trace =
      [("q1", none, .ok ⟨some "c1", some "r1", []⟩),
       ("q2", some "c1", .ok ⟨some "", some "r2", []⟩),
       ("q3", some "c1", .ok ⟨some "c3", some "r3", []⟩)] ∧
    (Option.isSome (some "") = true ∧ some "c1" ≠ (some "" : Option String)) ∧
    bridgeChainB updCidSpec none
      (runProgram [("ANTHROPIC_API_KEY", "k")] c3chatScript c3bridgeScript).trace
      = false := by decide

/-- C3 (amended): after any bridge call returns a non-empty conversation
identifier, every subsequent bridge call in the same process run includes
the most recently returned non-empty identifier; a bridge result lacking
a conversation identifier — or carrying an empty one, or a failed call —
leaves the previously stored session identifier unchanged.  Formally:
every bridge call of a run's trace passes exactly the identifier obtained
by folding the truthy-overwrite update `updCid` over the outcomes of the
preceding bridge calls, starting from the absent identifier; and a
non-empty passed identifier is included in the POSTed request body. -/
theorem claim_C3 (env : List (String × String)) (cs : List ChatResponse)
    (bs : List HttpResponse) :
    bridgeChainB updCid none (runProgram env cs bs).trace = true ∧
    (∀ (m c : String), c ≠ "" →
      ("conversation_id", c) ∈ bridgeRequestBody m (some c)) := by
  constructor
  · unfold runProgram
    split
    · simp [bridgeChainB]
    · exact (demo_cid_chain cs bs).1
  · intro m c hc
    simp [bridgeRequestBody, hc]

/-- Witness for C3 at the concrete counterexample run (where the amended
chain does hold) and a concrete non-empty identifier. -/
theorem claim_C3_witness :
    bridgeChainB updCid none
      (runProgram [("ANTHROPIC_API_KEY", "k")] c3chatScript c3bridgeScript).trace
      = true ∧
    ("c1" ≠ "" ∧ ("conversation_id", "c1") ∈ bridgeRequestBody "q2" (some "c1")) :=
  ⟨(claim_C3 [("ANTHROPIC_API_KEY", "k")] c3chatScript c3bridgeScript).1,
   by decide,
   (claim_C3 [("ANTHROPIC_API_KEY", "k")] c3chatScript c3bridgeScript).2 "q2" "c1"
     (by decide)⟩

/-- C4: within one exchange the transcript is strictly append-only: the
first chat-service call receives exactly the user turn, and the message
list passed to each later chat-service call equals the list passed to the
previous call plus exactly two appended turns — the assistant turn
carrying the response's content blocks, followed by a tool-result turn
keyed to the `id` of the first tool-use block of those blocks (`chatStep`)
— with no prior turn mutated or removed. -/
theorem claim_C4 (u : String) (cs : List ChatResponse)
    (bs : List HttpResponse) (cid : Option String) :
    (chatCalls (chat_with_claude u cs bs cid).trace).head? =
      some [⟨"user", .text u⟩] ∧
    List.Chain' chatStep (chatCalls (chat_with_claude u cs bs cid).trace) := by
  unfold chat_with_claude
  cases cs with
  | nil => simp [chatCalls]
  | cons resp rest =>
    simp only [chatCalls, List.filterMap_cons]
    exact ⟨rfl, loop_chat_chain rest resp bs cid _⟩

/-- Counterexample to C5 as stated: a 304 Not Modified bridge response
with a JSON body.  Its status is non-2xx, yet `raise_for_status` does not
raise — `requests.Response.raise_for_status` raises `HTTPError` only for
client errors (`400 <= status < 500`) and server errors
(`500 <= status < 600`), and 304 is neither (nor is it a redirect that
`requests.post` would follow, so it is observable).  Hence
`call_david_gpt` returns a normal result instead of raising, a further
chat-service call is made in the same exchange, and the exchange
completes with a value — three facts each negating a conjunct of the
claim at this input. -/
theorem claim_C5_counterexample :
    ¬(200 ≤ http304.status ∧ http304.status ≤ 299) ∧
    raise_for_status http304 = .ok () ∧
    (call_david_gpt "q" none http304).2 =
      .ok ⟨some "c304", some "r304", []⟩ ∧
    (processLoop (toolUseResp "q") [terminalResp "done"] [http304] none []).result
      = .ok (some "done") ∧
    chatCalls (processLoop (toolUseResp "q") [terminalResp "done"] [http304]
        none []).trace =
      [[⟨"assistant", .blocks [toolUseBlock "q"]⟩,
        ⟨"user", .toolResult "toolu_1" "r304"⟩]] := by decide

/-- C5 (amended): for every bridge HTTP response with a 4xx or 5xx status
code, `call_david_gpt` raises `HTTPError`, the exception propagates out of
`chat_with_claude`, and no further chat-service call is made in that
exchange — the failing iteration's trace is exactly the one bridge call,
with no retry and the stored identifier unchanged.  (A non-2xx status
outside 4xx/5xx, such as 304, does not raise: see the counterexample.) -/
theorem claim_C5 (http : HttpResponse) (h4 : 400 ≤ http.status)
    (h6 : http.status < 600) :
    (∀ (m : String) (cid : Option String),
      (call_david_gpt m cid http).2 = .error (.httpError http.status)) ∧
    (∀ (resp : ChatResponse) (cs : List ChatResponse) (bs : List HttpResponse)
        (cid : Option String) (msgs : List Message) (tool_use : ContentBlock)
        (msg : String),
      resp.stop_reason = "tool_use" →
      resp.content.find? (fun b => b.type == "tool_use") = some tool_use →
      tool_use.input.lookup "message" = some msg →
        processLoop resp cs (http :: bs) cid msgs =
          ⟨[.bridgeCall msg cid (.error (.httpError http.status))], cid, cs, bs,
            .error (.httpError http.status)⟩) ∧
    (∀ (u : String) (resp : ChatResponse) (cs : List ChatResponse)
        (bs : List HttpResponse) (cid : Option String) (tool_use : ContentBlock)
        (msg : String),
      resp.stop_reason = "tool_use" →
      resp.content.find? (fun b => b.type == "tool_use") = some tool_use →
      tool_use.input.lookup "message" = some msg →
        (chat_with_claude u (resp :: cs) (http :: bs) cid).result =
          .error (.httpError http.status)) := by
  have hcall : ∀ (m : String) (cid : Option String),
      (call_david_gpt m cid http).2 = .error (.httpError http.status) := by
    intro m cid
    simp [call_david_gpt, raise_for_status, h4, h6]
  have hloop : ∀ (resp : ChatResponse) (cs : List ChatResponse)
      (bs : List HttpResponse) (cid : Option String) (msgs : List Message)
      (tool_use : ContentBlock) (msg : String),
      resp.stop_reason = "tool_use" →
      resp.content.find? (fun b => b.type == "tool_use") = some tool_use →
      tool_use.input.lookup "message" = some msg →
        processLoop resp cs (http :: bs) cid msgs =
          ⟨[.bridgeCall msg cid (.error (.httpError http.status))], cid, cs, bs,
            .error (.httpError http.status)⟩ := by
    intro resp cs bs cid msgs tool_use msg h1 h2 h3
    unfold processLoop
    simp [h1, h2, h3, hcall msg cid]
  refine ⟨hcall, hloop, ?_⟩
  intro u resp cs bs cid tool_use msg h1 h2 h3
  unfold chat_with_claude
  simp only []
  rw [hloop resp cs bs cid _ tool_use msg h1 h2 h3]

/-- Witness for C5 at a concrete 404 bridge response. -/
theorem claim_C5_witness :
    (400 ≤ (404 : Nat) ∧ (404 : Nat) < 600 ∧
     (toolUseResp "q").stop_reason = "tool_use" ∧
     (toolUseResp "q").content.find? (fun b => b.type == "tool_use") =
       some (toolUseBlock "q") ∧
     (toolUseBlock "q").input.lookup "message" = some "q") ∧
    (call_david_gpt "q" none ⟨404, none⟩).2 = .error (.httpError 404) ∧
    processLoop (toolUseResp "q") [] [⟨404, none⟩] none [] =
      ⟨[.bridgeCall "q" none (.error (.httpError 404))], none, [], [],
        .error (.httpError 404)⟩ ∧
    (chat_with_claude "u" [toolUseResp "q"] [⟨404, none⟩] none).result =
      .error (.httpError 404) :=
  ⟨⟨by decide, by decide, by decide, by decide, by decide⟩,
   (claim_C5 ⟨404, none⟩ (by decide) (by decide)).1 "q" none,
   (claim_C5 ⟨404, none⟩ (by decide) (by decide)).2.1 (toolUseResp "q") [] []
     none [] (toolUseBlock "q") "q" (by decide) (by decide) (by decide),
   (claim_C5 ⟨404, none⟩ (by decide) (by decide)).2.2 "u" (toolUseResp "q") []
     [] none (toolUseBlock "q") "q" (by decide) (by decide) (by decide)⟩

/-- `next(block for block in content if block.type == "tool_use")` picks
`b` when nothing before `b` is a tool-use block. -/
theorem find_first_toolUse (pre post : List ContentBlock) (b : ContentBlock)
    (hpre : ∀ x ∈ pre, x.type ≠ "tool_use") (hb : b.type = "tool_use") :
    (pre ++ b :: post).find? (fun x => x.type == "tool_use") = some b := by
  induction pre with
  | nil => simp [List.find?, hb]
  | cons a rest ih =>
    have ha : a.type ≠ "tool_use" := hpre a (List.mem_cons_self a rest)
    simp only [List.cons_append]
    rw [List.find?_cons_of_neg _ (by simpa using ha)]
    exact ih fun x hx => hpre x (List.mem_cons_of_mem a hx)

/-- C6: the loop dispatches the first tool-use block's input to the bridge
without checking the block's tool name against the single declared tool
name: replacing the name of the first tool-use block by an arbitrary
string `n` (equal to `"ask_david_gpt"` or not) leaves the dispatched
event — the first event of the iteration — unchanged, and whenever the
block's input carries a `message` the bridge is called with it. -/
theorem claim_C6 (resp : ChatResponse) (pre post : List ContentBlock)
    (b : ContentBlock) (n : String) (cs : List ChatResponse)
    (bs : List HttpResponse) (cid : Option String) (msgs : List Message)
    (hstop : resp.stop_reason = "tool_use")
    (hcontent : resp.content = pre ++ b :: post)
    (hpre : ∀ x ∈ pre, x.type ≠ "tool_use")
    (hb : b.type = "tool_use") :
    tools.map ToolSchema.name = ["ask_david_gpt"] ∧
    (processLoop {resp with content := pre ++ {b with name := n} :: post}
        cs bs cid msgs).trace.head? =
      (processLoop resp cs bs cid msgs).trace.head? ∧
    (∀ msg, b.input.lookup "message" = some msg →
      ∃ res tl,
        (processLoop {resp with content := pre ++ {b with name := n} :: post}
          cs bs cid msgs).trace = .bridgeCall msg cid res :: tl) := by
  have hb' : ({b with name := n} : ContentBlock).type = "tool_use" := hb
  have hf1 : resp.content.find? (fun x => x.type == "tool_use") = some b := by
    rw [hcontent]; exact find_first_toolUse pre post b hpre hb
  have hf2 : (pre ++ ({b with name := n} : ContentBlock) :: post).find?
      (fun x => x.type == "tool_use") = some {b with name := n} :=
    find_first_toolUse pre post _ hpre hb'
  refine ⟨rfl, ?_, ?_⟩
  · unfold processLoop
    simp only [hstop, hf1, hf2, if_true, reduceIte]
    cases hlk : b.input.lookup "message" with
    | none => simp
    | some msg =>
      simp only [hlk]
      cases bs with
      | nil => simp
      | cons http rest =>
        cases hc : (call_david_gpt msg cid http).2 with
        | error e => simp [hc]
        | ok result =>
          simp only [hc]
          cases hr : result.response with
          | none => simp
          | some rtext =>
            cases cs with
            | nil => simp
            | cons r' cr => simp
  · intro msg hmsg
    obtain ⟨res, tl, htr, _⟩ :=
      processLoop_head {resp with content := pre ++ {b with name := n} :: post}
        cs bs cid msgs {b with name := n} msg hstop hf2 hmsg
    exact ⟨res, tl, htr⟩

/-- Witness for C6: renaming the requested tool to a name that is not the
declared one leaves the dispatched bridge call unchanged. -/
theorem claim_C6_witness :
    ((toolUseResp "ping").stop_reason = "tool_use" ∧
     (toolUseResp "ping").content = [] ++ toolUseBlock "ping" :: [] ∧
     (toolUseBlock "ping").type = "tool_use") ∧
    (processLoop {toolUseResp "ping" with
        content := [] ++ {toolUseBlock "ping" with
          name := "totally_different_tool"} :: []} [] [] none []).trace.head? =
      (processLoop (toolUseResp "ping") [] [] none []).trace.head? ∧
    (∃ res tl,
      (processLoop {toolUseResp "ping" with
        content := [] ++ {toolUseBlock "ping" with
          name := "totally_different_tool"} :: []} [] [] none []).trace =
        .bridgeCall "ping" none res :: tl) :=
  ⟨⟨by decide, by decide, by decide⟩,
   (claim_C6 (toolUseResp "ping") [] [] (toolUseBlock "ping")
     "totally_different_tool" [] [] none [] (by decide) (by decide)
     (by simp) (by decide)).2.1,
   (claim_C6 (toolUseResp "ping") [] [] (toolUseBlock "ping")
     "totally_different_tool" [] [] none [] (by decide) (by decide)
     (by simp) (by decide)).2.2 "ping" (by decide)⟩

/-- Counterexample to C7 as stated: when the supplied conversation
identifier is the (present, supplied) empty string — `Option.isSome`
holds of the argument, so an identifier is supplied — `call_david_gpt`
POSTs the new-conversation body with the `persona` field, and not the
reply-to-conversation body that the claim requires whenever an
identifier is supplied: the source branch `if conversation_id:` treats
`""` as falsy and takes the new-conversation branch. -/
theorem claim_C7_counterexample :
    Option.isSome (some "") = true ∧
    (call_david_gpt "m" (some "") (okBridgeHttp none none)).1 =
      specNewBody "m" "david" ∧
    (call_david_gpt "m" (some "") (okBridgeHttp none none)).1 ≠
      specReplyBody "" "m" := by decide

/-- C7 (amended): `call_david_gpt` POSTs the specified new-conversation
body `{"action": "new_conversation", "message": m, "persona": "david"}`
when the supplied identifier is absent — or present but empty — and the
specified reply body `{"action": "reply_to_conversation",
"conversation_id": c, "message": m}` when a non-empty identifier `c` is
supplied; and on a non-raising response the returned record carries the
body's fields with `citations` defaulted to the empty list when absent. -/
theorem claim_C7 (m : String) :
    (∀ http, (call_david_gpt m none http).1 = specNewBody m "david") ∧
    (∀ http, (call_david_gpt m (some "") http).1 = specNewBody m "david") ∧
    (∀ http (c : String), c ≠ "" →
      (call_david_gpt m (some c) http).1 = specReplyBody c m) ∧
    (∀ (cid : Option String) (status : Nat) (data : BridgeData),
      ¬(400 ≤ status ∧ status < 600) → data.citations = none →
        (call_david_gpt m cid ⟨status, some data⟩).2 =
          .ok ⟨data.conversation_id, data.response, []⟩) := by
  refine ⟨?_, ?_, ?_, ?_⟩
  · intro http
    simp [call_david_gpt, bridgeRequestBody, specNewBody]
  · intro http
    simp [call_david_gpt, bridgeRequestBody, specNewBody]
  · intro http c hc
    simp [call_david_gpt, bridgeRequestBody, specReplyBody, hc]
  · intro cid status data hs hc
    simp [call_david_gpt, raise_for_status, hs, hc]

/-- Witness for C7 at concrete identifiers and a concrete 200 response
lacking the `citations` field. -/
theorem claim_C7_witness :
    (call_david_gpt "hi" none (okBridgeHttp none none)).1 =
      specNewBody "hi" "david" ∧
    (call_david_gpt "hi" (some "") (okBridgeHttp none none)).1 =
      specNewBody "hi" "david" ∧
    ("c7" ≠ "" ∧
     (call_david_gpt "hi" (some "c7") (okBridgeHttp none none)).1 =
       specReplyBody "c7" "hi") ∧
    (¬(400 ≤ (200 : Nat) ∧ (200 : Nat) < 600) ∧
     (⟨some "c7", some "r", none⟩ : BridgeData).citations = none ∧
     (call_david_gpt "hi" none ⟨200, some ⟨some "c7", some "r", none⟩⟩).2 =
       .ok ⟨some "c7", some "r", []⟩) :=
  ⟨(claim_C7 "hi").1 (okBridgeHttp none none),
   (claim_C7 "hi").2.1 (okBridgeHttp none none),
   ⟨by decide, (claim_C7 "hi").2.2.1 (okBridgeHttp none none) "c7" (by decide)⟩,
   by decide, by decide,
   (claim_C7 "hi").2.2.2 none 200 ⟨some "c7", some "r", none⟩ (by decide)
     (by decide)⟩

/-- C8: if the chat-service credential environment variable is absent, the
program raises `ValueError` at startup, before any network request — the
run's trace of external calls is empty and neither the chat service nor
the bridge is ever contacted. -/
theorem claim_C8 (env : List (String × String)) (cs : List ChatResponse)
    (bs : List HttpResponse) (h : env.lookup "ANTHROPIC_API_KEY" = none) :
    runProgram env cs bs =
      ⟨[], none,
        .error (.valueError "Please set ANTHROPIC_API_KEY environment variable")⟩ := by
  unfold runProgram startup
  simp [h, pyTruthy]

/-- Witness for C8 at the empty environment. -/
theorem claim_C8_witness :
    ([] : List (String × String)).lookup "ANTHROPIC_API_KEY" = none ∧
    runProgram [] c3chatScript c3bridgeScript =
      ⟨[], none,
        .error (.valueError "Please set ANTHROPIC_API_KEY environment variable")⟩ :=
  ⟨by decide, claim_C8 [] c3chatScript c3bridgeScript (by decide)⟩

/-- Counterexample to C9 as stated: a 304 Not Modified bridge response —
non-2xx, but one on which `requests`' `raise_for_status` does not raise
(it raises only for 4xx/5xx) — carrying a JSON body with a conversation
identifier.  No error is raised before the identifier update, the update
runs, and the stored session identifier is no longer what it was before
the call: it changes from absent to `"c304"`, and the exchange even
completes normally. -/
theorem claim_C9_counterexample :
    ¬(200 ≤ http304.status ∧ http304.status ≤ 299) ∧
    raise_for_status http304 = .ok () ∧
    (processLoop (toolUseResp "q") [terminalResp "done"] [http304] none
        []).conversation_id = some "c304" ∧
    (processLoop (toolUseResp "q") [terminalResp "done"] [http304] none
        []).conversation_id ≠ none ∧
    (processLoop (toolUseResp "q") [terminalResp "done"] [http304] none
        []).result = .ok (some "done") := by decide

/-- C9 (amended): atomicity of session state on bridge failure: if the
bridge responds with a 4xx or 5xx status — the statuses on which
`raise_for_status` raises — the stored session conversation identifier
is exactly what it was before the failed call, whatever the loop was
doing: the exception is raised inside `call_david_gpt`, before the
identifier update runs.  (A non-raising non-2xx status such as 304 can
still update the identifier: see the counterexample.) -/
theorem claim_C9 (resp : ChatResponse) (cs : List ChatResponse)
    (http : HttpResponse) (bs : List HttpResponse) (cid : Option String)
    (msgs : List Message) (h4 : 400 ≤ http.status) (h6 : http.status < 600) :
    (processLoop resp cs (http :: bs) cid msgs).conversation_id = cid := by
  unfold processLoop
  repeat' split
  all_goals simp_all [call_david_gpt, raise_for_status]

/-- Witness for C9 at a concrete 500 bridge response. -/
theorem claim_C9_witness :
    (400 ≤ (500 : Nat) ∧ (500 : Nat) < 600) ∧
    (processLoop (toolUseResp "q") [terminalResp "done"]
        [⟨500, some ⟨some "cX", some "r", none⟩⟩] (some "before")
        []).conversation_id = some "before" :=
  ⟨⟨by decide, by decide⟩,
   claim_C9 (toolUseResp "q") [terminalResp "done"]
     ⟨500, some ⟨some "cX", some "r", none⟩⟩ [] (some "before") []
     (by decide) (by decide)⟩

/-- C10: if a terminal chat-service response contains no content block
bearing a text attribute, the loop returns `None` rather than raising —
and in general the value returned for a terminal response is the optional
`firstText`, defined (no exception) for every terminal response. -/
theorem claim_C10 :
    (∀ (resp : ChatResponse) (cs : List ChatResponse) (bs : List HttpResponse)
        (cid : Option String) (msgs : List Message),
      resp.stop_reason ≠ "tool_use" → (∀ b ∈ resp.content, b.text = none) →
        (processLoop resp cs bs cid msgs).result = .ok none) ∧
    (∀ (u : String) (resp : ChatResponse) (rest : List ChatResponse)
        (bs : List HttpResponse) (cid : Option String),
      resp.stop_reason ≠ "tool_use" →
        (chat_with_claude u (resp :: rest) bs cid).result =
          .ok (firstText resp.content)) := by
  constructor
  · intro resp cs bs cid msgs h hn
    rw [processLoop_terminal resp cs bs cid msgs h]
    have : resp.content.find? (fun b => b.text.isSome) = none := by
      rw [List.find?_eq_none]
      intro b hb
      simp [hn b hb]
    simp [firstText, this]
  · intro u resp rest bs cid h
    unfold chat_with_claude
    simp only []
    rw [processLoop_terminal resp rest bs cid _ h]

/-- Witness for C10 at a terminal response whose only block is a tool-use
block (no text attribute anywhere). -/
theorem claim_C10_witness :
    (noTextResp.stop_reason ≠ "tool_use" ∧
     (∀ b ∈ noTextResp.content, b.text = none)) ∧
    (processLoop noTextResp [] [] none []).result = .ok none ∧
    (chat_with_claude "u" [noTextResp] [] none).result =
      .ok (firstText noTextResp.content) :=
  ⟨⟨by decide, by decide⟩,
   claim_C10.1 noTextResp [] [] none [] (by decide) (by decide),
   claim_C10.2 "u" noTextResp [] [] none (by decide)⟩
